import Mathlib

/-!
Verification of `create-gh-app-token` (src/main.rs).

The program builds a signed JWT for a GitHub App (`create_jwt`), exchanges it
for an installation access token (`get_installation_token`) and prints the
token and its expiry (`main`).  External libraries (the system clock, the RSA
PEM parser and JWT signer from `jsonwebtoken`, and the HTTP transport from
`reqwest`) are modelled as explicit environments of oracles; the program's own
logic is embedded faithfully below.  JSON parsing of response bodies
(`serde_json` via `reqwest::Response::json`) is modelled by an executable JSON
parser covering the fragment relevant to this program.
-/

namespace GhApp

/-- JSON values, modelling `serde_json::Value` as far as this program needs. -/
inductive Json where
  | null : Json
  | bool : Bool → Json
  | num : Int → Json
  | str : String → Json
  | arr : List Json → Json
  | obj : List (String × Json) → Json

/-- Skip JSON whitespace. -/
def skipWs : List Char → List Char
  | c :: cs => if c = ' ' ∨ c = '\n' ∨ c = '\t' ∨ c = '\r' then skipWs cs else c :: cs
  | [] => []

/-- Parse the body of a JSON string literal (after the opening quote), returning
the decoded characters and the remaining input.  Handles the simple escape
sequences; `\u`, `\b`, `\f` do not occur in this program's inputs. -/
def parseStringBody : List Char → Option (List Char × List Char)
  | [] => none
  | '"' :: cs => some ([], cs)
  | '\\' :: c :: cs =>
    match (match c with
           | '"' => some '"'
           | '\\' => some '\\'
           | '/' => some '/'
           | 'n' => some '\n'
           | 't' => some '\t'
           | 'r' => some '\r'
           | _ => none) with
    | none => none
    | some e =>
      match parseStringBody cs with
      | none => none
      | some (body, rest) => some (e :: body, rest)
  | '\\' :: [] => none
  | c :: cs =>
    match parseStringBody cs with
    | none => none
    | some (body, rest) => some (c :: body, rest)

/-- Parse a run of decimal digits. -/
def parseDigits : List Char → Nat → Option (Nat × List Char)
  | c :: cs, acc =>
    if c.isDigit then
      match parseDigits cs (acc * 10 + (c.toNat - '0'.toNat)) with
      | some r => some r
      | none => some (acc * 10 + (c.toNat - '0'.toNat), cs)
    else some (acc, c :: cs)
  | [], acc => some (acc, [])

mutual

/-- Recursive-descent JSON value parser (fuel-indexed for termination). -/
def parseValue : Nat → List Char → Option (Json × List Char)
  | 0, _ => none
  | fuel + 1, input =>
    match skipWs input with
    | 'n' :: 'u' :: 'l' :: 'l' :: rest => some (.null, rest)
    | 't' :: 'r' :: 'u' :: 'e' :: rest => some (.bool true, rest)
    | 'f' :: 'a' :: 'l' :: 's' :: 'e' :: rest => some (.bool false, rest)
    | '"' :: rest =>
      match parseStringBody rest with
      | none => none
      | some (body, rest') => some (.str (String.mk body), rest')
    | '-' :: c :: rest =>
      if c.isDigit then
        match parseDigits (c :: rest) 0 with
        | none => none
        | some (n, rest') => some (.num (-(n : Int)), rest')
      else none
    | '[' :: rest => parseArrayItems fuel (skipWs rest) true
    | '\x7b' :: rest => parseObjectItems fuel (skipWs rest) true
    | c :: rest =>
      if c.isDigit then
        match parseDigits (c :: rest) 0 with
        | none => none
        | some (n, rest') => some (.num (n : Int), rest')
      else none
    | [] => none

/-- Parse array elements after `[`; `first` is true before the first element. -/
def parseArrayItems : Nat → List Char → Bool → Option (Json × List Char)
  | 0, _, _ => none
  | _ + 1, ']' :: rest, true => some (.arr [], rest)
  | fuel + 1, input, _ =>
    match parseValue fuel input with
    | none => none
    | some (v, rest) =>
      match skipWs rest with
      | ',' :: rest' =>
        match parseArrayItems fuel (skipWs rest') false with
        | some (.arr vs, rest'') => some (.arr (v :: vs), rest'')
        | _ => none
      | ']' :: rest' => some (.arr [v], rest')
      | _ => none

/-- Parse object members after the opening brace; `first` is true before the
first member. -/
def parseObjectItems : Nat → List Char → Bool → Option (Json × List Char)
  | 0, _, _ => none
  | _ + 1, '\x7d' :: rest, true => some (.obj [], rest)
  | fuel + 1, input, _ =>
    match skipWs input with
    | '"' :: rest =>
      match parseStringBody rest with
      | none => none
      | some (key, rest') =>
        match skipWs rest' with
        | ':' :: rest'' =>
          match parseValue fuel rest'' with
          | none => none
          | some (v, rest3) =>
            match skipWs rest3 with
            | ',' :: rest4 =>
              match parseObjectItems fuel (skipWs rest4) false with
              | some (.obj ms, rest5) => some (.obj ((String.mk key, v) :: ms), rest5)
              | _ => none
            | '\x7d' :: rest4 => some (.obj [(String.mk key, v)], rest4)
            | _ => none
        | _ => none
    | _ => none

end

/-- Parse a complete JSON document from a string (model of `serde_json`
parsing as invoked by `reqwest::Response::json`). -/
def parseJsonString (s : String) : Option Json :=
  match parseValue (s.length + 1) s.toList with
  | some (j, rest) => if skipWs rest = [] then some j else none
  | none => none

instance {ε α : Type} [DecidableEq ε] [DecidableEq α] : DecidableEq (Except ε α) :=
  fun a b =>
    match a, b with
    | .ok x, .ok y =>
      if h : x = y then .isTrue (by rw [h]) else .isFalse (by simp [h])
    | .error x, .error y =>
      if h : x = y then .isTrue (by rw [h]) else .isFalse (by simp [h])
    | .ok _, .error _ => .isFalse (by simp)
    | .error _, .ok _ => .isFalse (by simp)

/-- `struct TokenResponse { token: String, expires_at: String }`
(src/main.rs, derive(Deserialize)). -/
structure TokenResponse where
  token : String
  expires_at : String
deriving Repr, DecidableEq

/-- First value bound to `name` in a JSON object's member list. -/
def lookupField (fields : List (String × Json)) (name : String) : Option Json :=
  match fields with
  | [] => none
  | (k, v) :: rest => if k = name then some v else lookupField rest name

/-- Deserialize `TokenResponse` from a JSON value, following the semantics of
`derive(Deserialize)`: the value must be an object, both fields are required
and must be strings, extra fields are ignored. -/
def tokenResponseOfJson : Json → Except String TokenResponse
  | .obj fields =>
    match lookupField fields "token" with
    | some (.str t) =>
      match lookupField fields "expires_at" with
      | some (.str e) => .ok { token := t, expires_at := e }
      | some _ => .error "invalid type for field expires_at"
      | none => .error "missing field expires_at"
    | some _ => .error "invalid type for field token"
    | none => .error "missing field token"
  | _ => .error "invalid type: expected struct TokenResponse"

/-- Model of `response.json::<TokenResponse>()`: parse the body as JSON, then
deserialize the `TokenResponse` structure. -/
def parseTokenResponse (body : String) : Except String TokenResponse :=
  match parseJsonString body with
  | none => .error "invalid JSON in response body"
  | some j => tokenResponseOfJson j

/-- `struct JwtClaims { iat: u64, exp: u64, iss: String }` (src/main.rs). -/
structure JwtClaims where
  iat : Nat
  exp : Nat
  iss : String
deriving Repr, DecidableEq

/-- `jsonwebtoken::Algorithm` (the variants used or selectable); the source
uses only `RS256`. -/
inductive Algorithm where
  | HS256 | HS384 | HS512
  | RS256 | RS384 | RS512
  | ES256 | ES384
  | PS256 | PS384 | PS512
  | EdDSA
deriving Repr, DecidableEq

/-- `jsonwebtoken::Header` (the fields this program touches). -/
structure Header where
  typ : Option String
  alg : Algorithm
deriving Repr, DecidableEq

/-- `jsonwebtoken::Header::new(alg)`: `typ` is set to `"JWT"`. -/
def Header.new (alg : Algorithm) : Header :=
  { typ := some "JWT", alg := alg }

/-- The error outcomes of the program, tagged by provenance.  The source uses
`Box<dyn std::error::Error>` everywhere; each variant records the step whose
`?` produced it together with the underlying message. -/
inductive Error where
  | io : String → Error
  | clock : String → Error
  | keyFormat : String → Error
  | signing : String → Error
  | transport : String → Error
  | apiError : String → Error
  | parse : String → Error
deriving Repr, DecidableEq

/-- The message the error displays (for `apiError` this is the
`format!("API error: {}", error_text)` string built in
`get_installation_token`). -/
def Error.display : Error → String
  | .io m => m
  | .clock m => m
  | .keyFormat m => m
  | .signing m => m
  | .transport m => m
  | .apiError body => "API error: " ++ body
  | .parse m => m

/-- A handle to a parsed RSA private key (`jsonwebtoken::EncodingKey`),
kept abstract: only the external library inspects it. -/
structure EncodingKey where
  keyData : List Nat
deriving Repr, DecidableEq

/-- Oracles for the external effects `create_jwt` depends on:
`SystemTime::now().duration_since(UNIX_EPOCH)?.as_secs()` (a `u64` reading,
or a clock error), `EncodingKey::from_rsa_pem` and `jsonwebtoken::encode`. -/
structure CryptoEnv where
  now : Except String Nat
  from_rsa_pem : String → Except String EncodingKey
  encode : Header → JwtClaims → EncodingKey → Except String String

/-- The claims struct built by `create_jwt` from the clock reading `now`
(a `u64`, hence the wrap at `2 ^ 64` on `now + 600`) and `app_id`. -/
def mkClaims (now : Nat) (app_id : String) : JwtClaims :=
  { iat := now % 2 ^ 64, exp := (now + 600) % 2 ^ 64, iss := app_id }

/-- Body of `fn create_jwt` (src/main.rs lines 56-77), instrumented to return
the claims it signs alongside the encoded token.  Steps in source order: read
the clock, build the claims, build the RS256 header, parse the key from PEM,
encode (sign). -/
def create_jwt_run (env : CryptoEnv) (private_key : String) (app_id : String) :
    Except Error (JwtClaims × String) :=
  match env.now with
  | .error e => .error (.clock e)
  | .ok now =>
    let claims := mkClaims now app_id
    let header := Header.new .RS256
    match env.from_rsa_pem private_key with
    | .error e => .error (.keyFormat e)
    | .ok key =>
      match env.encode header claims key with
      | .error e => .error (.signing e)
      | .ok token => .ok (claims, token)

/-- `fn create_jwt(private_key: &str, app_id: &str) -> Result<String, _>`:
the token component of `create_jwt_run`. -/
def create_jwt (env : CryptoEnv) (private_key : String) (app_id : String) :
    Except Error String :=
  (create_jwt_run env private_key app_id).map (·.2)

/-- An outbound HTTP request as assembled by `reqwest`'s builder. -/
structure Request where
  method : String
  url : String
  headers : List (String × String)
  body : Option String
deriving Repr, DecidableEq

/-- An HTTP response: status code and body text. -/
structure Response where
  status : Nat
  body : String
deriving Repr, DecidableEq

/-- The HTTP transport oracle (`reqwest::Client::send`): either a transport
error or a response. -/
structure HttpEnv where
  send : Request → Except String Response

/-- `reqwest::StatusCode::is_success`: status in `200..=299`. -/
def statusIsSuccess (status : Nat) : Bool :=
  200 ≤ status && status ≤ 299

/-- The request `get_installation_token` builds: POST to
`https://api.github.com/app/installations/{installation_id}/access_tokens`
with the three headers from src/main.rs lines 87-91 and no body. -/
def github_request (jwt : String) (installation_id : String) : Request :=
  { method := "POST"
    url := "https://api.github.com/app/installations/" ++ installation_id
      ++ "/access_tokens"
    headers :=
      [ ("user-agent", "rust-github-app-token-generator")
      , ("accept", "application/vnd.github.v3+json")
      , ("authorization", "Bearer " ++ jwt) ]
    body := none }

/-- Body of `async fn get_installation_token` (src/main.rs lines 79-104),
instrumented to also return the list of requests it sent.  It builds one
request, sends it once, rejects non-success statuses with
`format!("API error: {}", error_text)`, and otherwise parses the body as a
`TokenResponse`. -/
def get_installation_token_run (env : HttpEnv) (jwt : String)
    (installation_id : String) : Except Error TokenResponse × List Request :=
  let req := github_request jwt installation_id
  ( match env.send req with
    | .error e => .error (.transport e)
    | .ok resp =>
      if ¬ statusIsSuccess resp.status then
        .error (.apiError resp.body)
      else
        match parseTokenResponse resp.body with
        | .error e => .error (.parse e)
        | .ok tr => .ok tr
  , [req] )

/-- `fn get_installation_token(jwt, installation_id) -> Result<TokenResponse, _>`:
the result component of `get_installation_token_run`. -/
def get_installation_token (env : HttpEnv) (jwt : String)
    (installation_id : String) : Except Error TokenResponse :=
  (get_installation_token_run env jwt installation_id).1

/-- The three command-line arguments (`struct Args`, parsed by clap, which is
out of core scope). -/
structure Args where
  key_path : String
  app_id : String
  installation_id : String
deriving Repr, DecidableEq

/-- The whole external world `main` runs against: the file system
(`fs::read_to_string`) plus the crypto and HTTP oracles. -/
structure World where
  read_to_string : String → Except String String
  crypto : CryptoEnv
  http : HttpEnv

/-- Body of `async fn main` (src/main.rs lines 37-54): read the key file,
build the JWT, exchange it, and on success return the two `println!` lines. -/
def mainRun (w : World) (args : Args) : Except Error (List String) :=
  match w.read_to_string args.key_path with
  | .error e => .error (.io e)
  | .ok private_key =>
    match create_jwt w.crypto private_key args.app_id with
    | .error e => .error e
    | .ok jwt =>
      match get_installation_token w.http jwt args.installation_id with
      | .error e => .error e
      | .ok token =>
        .ok [ "Installation Token: " ++ token.token
            , "Expires at: " ++ token.expires_at ]

/-- Process exit status: a Rust `main` returning `Err` exits with status 1,
`Ok(())` with status 0. -/
def mainExitStatus (r : Except Error (List String)) : Nat :=
  match r with
  | .ok _ => 0
  | .error _ => 1

/-- The lines printed to standard output: only the success path prints. -/
def mainStdout (r : Except Error (List String)) : List String :=
  match r with
  | .ok lines => lines
  | .error _ => []

/-! Concrete environments used to instantiate the theorems below. -/

/-- A crypto environment whose oracles all succeed: fixed clock reading,
key parse and signing succeed. -/
def testCrypto : CryptoEnv where
  now := .ok 1700000000
  from_rsa_pem := fun _ => .ok { keyData := [1] }
  encode := fun _ _ _ => .ok "hdr.claims.sig"

/-- A crypto environment whose PEM parser rejects the key material (as the
external parser does for an empty string or an elliptic-curve key). -/
def testCryptoBadKey : CryptoEnv where
  now := .ok 1700000000
  from_rsa_pem := fun _ => .error "InvalidKeyFormat"
  encode := fun _ _ _ => .ok "hdr.claims.sig"

/-- The stub success body from the end-to-end scenario. -/
def stubSuccessBody : String :=
  "\x7b\"token\":\"ghs_abc123\",\"expires_at\":\"2024-01-01T01:00:00Z\"\x7d"

/-- A 2xx body with the `token` field missing. -/
def stubMissingTokenBody : String :=
  "\x7b\"expires_at\":\"2024-01-01T00:00:00Z\"\x7d"

/-- The stub rejection body returned with status 401. -/
def stubRejectionBody : String :=
  "\x7b\"message\":\"Bad credentials\"\x7d"

/-- A stub endpoint answering every request with status 200 and the stub
success body. -/
def testHttpOk : HttpEnv where
  send := fun _ => .ok { status := 200, body := stubSuccessBody }

/-- A stub endpoint answering every request with status 401 and
`stubRejectionBody`. -/
def testHttp401 : HttpEnv where
  send := fun _ => .ok { status := 401, body := stubRejectionBody }

/-- A stub endpoint answering every request with status 200 and a body whose
`token` field is missing. -/
def testHttpMissingToken : HttpEnv where
  send := fun _ => .ok { status := 200, body := stubMissingTokenBody }

/-- Concrete command-line arguments. -/
def testArgs : Args where
  key_path := "key.pem"
  app_id := "12345"
  installation_id := "67890"

/-- A world where every step succeeds and the endpoint is the success stub. -/
def testWorld : World where
  read_to_string := fun _ => .ok "PEM"
  crypto := testCrypto
  http := testHttpOk

/-- A world where reading the key file fails. -/
def testWorldBadFile : World where
  read_to_string := fun _ => .error "No such file or directory (os error 2)"
  crypto := testCrypto
  http := testHttpOk

/-! The claims. -/

/-- C1: whenever the clock reads `now` and the PEM parser accepts the key, the
claims structure signed by `create_jwt` is exactly `mkClaims now app_id`, and
(the `u64` sum `now + 600` not wrapping) it satisfies `exp = iat + 600` and
`iss = app_id`, the issuer string untransformed. -/
theorem create_jwt_claims_exp_iat_iss
    (env : CryptoEnv) (pk app_id : String) (now : Nat) (key : EncodingKey)
    (hnow : env.now = .ok now) (hkey : env.from_rsa_pem pk = .ok key)
    (hov : now + 600 < 2 ^ 64) :
    (mkClaims now app_id).exp = (mkClaims now app_id).iat + 600
    ∧ (mkClaims now app_id).iss = app_id
    ∧ ∀ claims token, create_jwt_run env pk app_id = .ok (claims, token) →
        claims = mkClaims now app_id := by
  have hlt : now < 2 ^ 64 := lt_of_le_of_lt (Nat.le_add_right now 600) hov
  refine ⟨?_, rfl, ?_⟩
  · simp only [mkClaims]
    omega
  · intro claims token h
    rcases henc : env.encode (Header.new .RS256) (mkClaims now app_id) key
      with e | t <;>
      simp [create_jwt_run, hnow, hkey, henc] at h
    exact h.1.symm

/-- C1 witness: the theorem instantiated at the concrete succeeding crypto
environment. -/
theorem create_jwt_claims_exp_iat_iss_witness :
    (mkClaims 1700000000 "12345").exp = (mkClaims 1700000000 "12345").iat + 600
    ∧ (mkClaims 1700000000 "12345").iss = "12345"
    ∧ ∀ claims token, create_jwt_run testCrypto "PEM" "12345" = .ok (claims, token) →
        claims = mkClaims 1700000000 "12345" :=
  create_jwt_claims_exp_iat_iss testCrypto "PEM" "12345" 1700000000
    { keyData := [1] } rfl rfl (by decide)

/-- C2: `get_installation_token` sends exactly one request, and that request
is a POST to the fixed base URL with the installation id interpolated,
carrying the User-Agent, Accept and `Authorization: Bearer` headers and no
body. -/
theorem get_installation_token_single_post (env : HttpEnv) (jwt iid : String) :
    (get_installation_token_run env jwt iid).2 = [github_request jwt iid]
    ∧ (github_request jwt iid).method = "POST"
    ∧ (github_request jwt iid).url =
        "https://api.github.com/app/installations/" ++ iid ++ "/access_tokens"
    ∧ (github_request jwt iid).headers =
        [ ("user-agent", "rust-github-app-token-generator")
        , ("accept", "application/vnd.github.v3+json")
        , ("authorization", "Bearer " ++ jwt) ]
    ∧ (github_request jwt iid).body = none :=
  ⟨rfl, rfl, rfl, rfl, rfl⟩

/-- C3: when the key file is read, the JWT is built, and the endpoint answers
with the stub success body, `main` succeeds, exits with status 0, and prints
exactly the token line and the expiry line. -/
theorem main_prints_token_and_expiry
    (w : World) (args : Args) (pk jwt : String)
    (hread : w.read_to_string args.key_path = .ok pk)
    (hjwt : create_jwt w.crypto pk args.app_id = .ok jwt)
    (hsend : w.http.send (github_request jwt args.installation_id) =
      .ok { status := 200, body := stubSuccessBody }) :
    mainRun w args =
      .ok ["Installation Token: ghs_abc123", "Expires at: 2024-01-01T01:00:00Z"]
    ∧ mainStdout (mainRun w args) =
      ["Installation Token: ghs_abc123", "Expires at: 2024-01-01T01:00:00Z"]
    ∧ mainExitStatus (mainRun w args) = 0 := by
  have hparse : parseTokenResponse stubSuccessBody =
      .ok { token := "ghs_abc123", expires_at := "2024-01-01T01:00:00Z" } := by
    decide
  have hst : statusIsSuccess 200 = true := by decide
  have hmain : mainRun w args =
      .ok ["Installation Token: ghs_abc123", "Expires at: 2024-01-01T01:00:00Z"] := by
    simp [mainRun, hread, hjwt, get_installation_token,
      get_installation_token_run, hsend, hst, hparse]
  exact ⟨hmain, by rw [hmain]; rfl, by rw [hmain]; rfl⟩

/-- C3 witness: the theorem instantiated at the fully concrete world. -/
theorem main_prints_token_and_expiry_witness :
    mainRun testWorld testArgs =
      .ok ["Installation Token: ghs_abc123", "Expires at: 2024-01-01T01:00:00Z"]
    ∧ mainStdout (mainRun testWorld testArgs) =
      ["Installation Token: ghs_abc123", "Expires at: 2024-01-01T01:00:00Z"]
    ∧ mainExitStatus (mainRun testWorld testArgs) = 0 :=
  main_prints_token_and_expiry testWorld testArgs "PEM" "hdr.claims.sig"
    rfl rfl rfl

/-- C4: when the endpoint answers with any non-2xx status,
`get_installation_token` fails with the `API error:` message carrying the
response body, and the displayed error text contains the body verbatim. -/
theorem get_installation_token_rejection
    (env : HttpEnv) (jwt iid : String) (resp : Response)
    (hsend : env.send (github_request jwt iid) = .ok resp)
    (hstatus : statusIsSuccess resp.status = false) :
    get_installation_token env jwt iid = .error (.apiError resp.body)
    ∧ (Error.apiError resp.body).display = "API error: " ++ resp.body
    ∧ ∃ pre, (Error.apiError resp.body).display = pre ++ resp.body := by
  refine ⟨?_, rfl, "API error: ", rfl⟩
  simp [get_installation_token, get_installation_token_run, hsend, hstatus]

/-- C4 witness: the theorem instantiated at the 401 stub with body
`stubRejectionBody`. -/
theorem get_installation_token_rejection_witness :
    get_installation_token testHttp401 "jwt" "67890" =
      .error (.apiError stubRejectionBody)
    ∧ (Error.apiError stubRejectionBody).display =
        "API error: " ++ stubRejectionBody
    ∧ ∃ pre, (Error.apiError stubRejectionBody).display =
        pre ++ stubRejectionBody :=
  get_installation_token_rejection testHttp401 "jwt" "67890"
    { status := 401, body := stubRejectionBody } rfl (by decide)

/-- C5: on a 2xx response, `get_installation_token` returns a credential
exactly when the body deserializes as a `TokenResponse`; a deserialization
failure becomes a parse error; and deserialization succeeds exactly when the
body is a JSON object carrying string `token` and `expires_at` fields. -/
theorem get_installation_token_parse_spec
    (env : HttpEnv) (jwt iid : String) (resp : Response)
    (hsend : env.send (github_request jwt iid) = .ok resp)
    (hstatus : statusIsSuccess resp.status = true) :
    (∀ tr, get_installation_token env jwt iid = .ok tr ↔
        parseTokenResponse resp.body = .ok tr)
    ∧ (∀ m, parseTokenResponse resp.body = .error m →
        get_installation_token env jwt iid = .error (.parse m))
    ∧ ∀ j tr, tokenResponseOfJson j = .ok tr ↔
        ∃ fields, j = .obj fields
          ∧ lookupField fields "token" = some (.str tr.token)
          ∧ lookupField fields "expires_at" = some (.str tr.expires_at) := by
  refine ⟨?_, ?_, ?_⟩
  · intro tr
    rcases hp : parseTokenResponse resp.body with m | tr' <;>
      simp [get_installation_token, get_installation_token_run, hsend,
        hstatus, hp]
  · intro m hp
    simp [get_installation_token, get_installation_token_run, hsend,
      hstatus, hp]
  · intro j tr
    constructor
    · intro h
      match j with
      | .null | .bool _ | .num _ | .str _ | .arr _ =>
        simp [tokenResponseOfJson] at h
      | .obj fields =>
        refine ⟨fields, rfl, ?_⟩
        rcases ht : lookupField fields "token" with _ | jt <;>
          simp [tokenResponseOfJson, ht] at h
        match jt with
        | .null | .bool _ | .num _ | .arr _ | .obj _ => simp at h
        | .str t =>
          rcases he : lookupField fields "expires_at" with _ | je <;>
            simp [he] at h
          match je with
          | .null | .bool _ | .num _ | .arr _ | .obj _ => simp at h
          | .str e =>
            simp at h
            rw [← h]
            exact ⟨rfl, rfl⟩
    · rintro ⟨fields, rfl, ht, he⟩
      simp [tokenResponseOfJson, ht, he]

/-- C5 witness: at the 200 stub whose body lacks the `token` field, the
exchange fails with the missing-field parse error. -/
theorem get_installation_token_parse_spec_witness :
    statusIsSuccess 200 = true
    ∧ parseTokenResponse stubMissingTokenBody = .error "missing field token"
    ∧ get_installation_token testHttpMissingToken "jwt" "67890" =
        .error (.parse "missing field token") :=
  ⟨by decide, by decide,
    (get_installation_token_parse_spec testHttpMissingToken "jwt" "67890"
      { status := 200, body := stubMissingTokenBody } rfl (by decide)).2.1
      "missing field token" (by decide)⟩

/-- C6: the assertion returned by `create_jwt` is exactly the signature of
`mkClaims now app_id` under the fixed header declaring RS256 (with
`typ = "JWT"`), using the key the PEM parser produced. -/
theorem create_jwt_signs_rs256
    (env : CryptoEnv) (pk app_id : String) (now : Nat) (key : EncodingKey)
    (hnow : env.now = .ok now) (hkey : env.from_rsa_pem pk = .ok key) :
    create_jwt env pk app_id =
      (env.encode (Header.new .RS256) (mkClaims now app_id) key).mapError
        Error.signing
    ∧ (Header.new .RS256).alg = .RS256
    ∧ (Header.new .RS256).typ = some "JWT" := by
  refine ⟨?_, rfl, rfl⟩
  rcases henc : env.encode (Header.new .RS256) (mkClaims now app_id) key
    with e | t <;>
    simp [create_jwt, create_jwt_run, hnow, hkey, henc, Except.mapError,
      Except.map]

/-- C6 witness: the theorem instantiated at the concrete succeeding crypto
environment. -/
theorem create_jwt_signs_rs256_witness :
    create_jwt testCrypto "PEM" "12345" =
      (testCrypto.encode (Header.new .RS256) (mkClaims 1700000000 "12345")
        { keyData := [1] }).mapError Error.signing
    ∧ (Header.new .RS256).alg = .RS256
    ∧ (Header.new .RS256).typ = some "JWT" :=
  create_jwt_signs_rs256 testCrypto "PEM" "12345" 1700000000
    { keyData := [1] } rfl rfl

/-- C7: when the PEM parser rejects the key material, `create_jwt` fails with
a key-format error and returns no assertion. -/
theorem create_jwt_key_format_error
    (env : CryptoEnv) (pk app_id : String) (now : Nat) (e : String)
    (hnow : env.now = .ok now)
    (hkey : env.from_rsa_pem pk = .error e) :
    create_jwt env pk app_id = .error (.keyFormat e)
    ∧ ∀ token, create_jwt env pk app_id ≠ .ok token := by
  have h : create_jwt env pk app_id = .error (.keyFormat e) := by
    simp [create_jwt, create_jwt_run, hnow, hkey, Except.map]
  exact ⟨h, fun token hc => by rw [h] at hc; cases hc⟩

/-- C7 witness: the theorem instantiated at the rejecting PEM parser with the
empty string as key material. -/
theorem create_jwt_key_format_error_witness :
    create_jwt testCryptoBadKey "" "12345" = .error (.keyFormat "InvalidKeyFormat")
    ∧ ∀ token, create_jwt testCryptoBadKey "" "12345" ≠ .ok token :=
  create_jwt_key_format_error testCryptoBadKey "" "12345" 1700000000
    "InvalidKeyFormat" rfl rfl

/-- C8: two runs of `create_jwt` with the same key material and issuer that
observe the same clock reading build identical claims payloads, even if their
key-parsing or signing oracles behave differently. -/
theorem create_jwt_time_deterministic
    (env1 env2 : CryptoEnv) (pk app_id : String)
    (hclock : env1.now = env2.now)
    (c1 c2 : JwtClaims) (t1 t2 : String)
    (h1 : create_jwt_run env1 pk app_id = .ok (c1, t1))
    (h2 : create_jwt_run env2 pk app_id = .ok (c2, t2)) :
    c1 = c2 ∧ c1.iat = c2.iat ∧ c1.exp = c2.exp ∧ c1.iss = c2.iss := by
  rcases hn : env1.now with e | now
  · simp [create_jwt_run, hn] at h1
  rcases hk1 : env1.from_rsa_pem pk with e | key1
  · simp [create_jwt_run, hn, hk1] at h1
  rcases he1 : env1.encode (Header.new .RS256) (mkClaims now app_id) key1
    with e | t
  · simp [create_jwt_run, hn, hk1, he1] at h1
  simp [create_jwt_run, hn, hk1, he1] at h1
  rcases hk2 : env2.from_rsa_pem pk with e | key2
  · simp [create_jwt_run, ← hclock, hn, hk2] at h2
  rcases he2 : env2.encode (Header.new .RS256) (mkClaims now app_id) key2
    with e | t'
  · simp [create_jwt_run, ← hclock, hn, hk2, he2] at h2
  simp [create_jwt_run, ← hclock, hn, hk2, he2] at h2
  rw [← h1.1, ← h2.1]
  exact ⟨rfl, rfl, rfl, rfl⟩

/-- C8 witness: two runs at the same concrete clock second, differing in the
signing oracle, build the same claims. -/
theorem create_jwt_time_deterministic_witness :
    create_jwt_run testCrypto "PEM" "12345" =
      .ok (mkClaims 1700000000 "12345", "hdr.claims.sig")
    ∧ mkClaims 1700000000 "12345" = mkClaims 1700000000 "12345" :=
  ⟨rfl,
    (create_jwt_time_deterministic testCrypto testCrypto "PEM" "12345" rfl
      (mkClaims 1700000000 "12345") (mkClaims 1700000000 "12345")
      "hdr.claims.sig" "hdr.claims.sig" rfl rfl).1⟩

/-- C9: every error in file reading, JWT construction or token exchange is
propagated unchanged to the top of `main`, and every failing run exits with
status 1 and prints nothing. -/
theorem main_errors_fatal (w : World) (args : Args) :
    (∀ e, w.read_to_string args.key_path = .error e →
        mainRun w args = .error (.io e))
    ∧ (∀ pk e, w.read_to_string args.key_path = .ok pk →
        create_jwt w.crypto pk args.app_id = .error e →
        mainRun w args = .error e)
    ∧ (∀ pk jwt e, w.read_to_string args.key_path = .ok pk →
        create_jwt w.crypto pk args.app_id = .ok jwt →
        get_installation_token w.http jwt args.installation_id = .error e →
        mainRun w args = .error e)
    ∧ (∀ e, mainRun w args = .error e →
        mainExitStatus (mainRun w args) = 1 ∧ mainStdout (mainRun w args) = []) := by
  refine ⟨?_, ?_, ?_, ?_⟩
  · intro e hread
    simp [mainRun, hread]
  · intro pk e hread hjwt
    simp [mainRun, hread, hjwt]
  · intro pk jwt e hread hjwt htok
    simp [mainRun, hread, hjwt, htok]
  · intro e hrun
    rw [hrun]
    exact ⟨rfl, rfl⟩

/-- C9 witness: at a world whose key file cannot be read, `main` fails with
that exact I/O error, exits 1 and prints nothing. -/
theorem main_errors_fatal_witness :
    mainRun testWorldBadFile testArgs =
      .error (.io "No such file or directory (os error 2)")
    ∧ mainExitStatus (mainRun testWorldBadFile testArgs) = 1
    ∧ mainStdout (mainRun testWorldBadFile testArgs) = [] :=
  ⟨(main_errors_fatal testWorldBadFile testArgs).1
      "No such file or directory (os error 2)" rfl,
    (main_errors_fatal testWorldBadFile testArgs).2.2.2
      (.io "No such file or directory (os error 2)")
      ((main_errors_fatal testWorldBadFile testArgs).1
        "No such file or directory (os error 2)" rfl)⟩

/-- C10: `create_jwt` never validates the issuer: for any `app_id`, the empty
string included, with the clock read and the oracles succeeding, it succeeds
and the signed claims carry `iss = app_id` verbatim. -/
theorem create_jwt_no_issuer_validation
    (env : CryptoEnv) (pk : String) (app_id : String) (now : Nat)
    (key : EncodingKey) (tok : String)
    (hnow : env.now = .ok now)
    (hkey : env.from_rsa_pem pk = .ok key)
    (henc : env.encode (Header.new .RS256) (mkClaims now app_id) key = .ok tok) :
    create_jwt_run env pk app_id = .ok (mkClaims now app_id, tok)
    ∧ (mkClaims now app_id).iss = app_id
    ∧ create_jwt env pk app_id = .ok tok := by
  have h : create_jwt_run env pk app_id = .ok (mkClaims now app_id, tok) := by
    simp [create_jwt_run, hnow, hkey, henc]
  exact ⟨h, rfl, by simp [create_jwt, h, Except.map]⟩

/-- C10 witness: the theorem instantiated at the empty issuer string. -/
theorem create_jwt_no_issuer_validation_witness :
    create_jwt_run testCrypto "PEM" "" =
      .ok (mkClaims 1700000000 "", "hdr.claims.sig")
    ∧ (mkClaims 1700000000 "").iss = ""
    ∧ create_jwt testCrypto "PEM" "" = .ok "hdr.claims.sig" :=
  create_jwt_no_issuer_validation testCrypto "PEM" "" 1700000000
    { keyData := [1] } "hdr.claims.sig" rfl rfl rfl

end GhApp
